import Mathlib

/-!
Shallow embedding of the BlueST SDK feature-codec core: the concrete feature
strategies `FeatureAccelerometer._extract_data` and `FeatureHumidity._extract_data`
(src/blue_st_sdk-1.5.0/blue_st_sdk/features/), their per-channel accessors, and the
`BLEAdvertisingDataParser.parse` base implementation
(src/blue_st_sdk-1.5.0/blue_st_sdk/advertising_data/).

Python exceptions are embedded as an `Except` error kind; the `float('nan')`
sentinel returned by accessors is an explicit constructor of `PyFloat`;
numeric values are embedded as rationals (the decoded int16 values and the
humidity division by 10.0 are exactly representable; no rounding matters for
the properties verified here).
-/

namespace BlueST

/-- Error kinds of the embedded code: `BlueSTInvalidDataException` (malformed
data) with its message, the Numeric Conversion out-of-range error, Python's
`IndexError` from list indexing, `NotImplementedError` with its message, and
a malformed-advertisement error kind (spec section 7 taxonomy). -/
inductive PyError where
  | invalidData (msg : String)
  | outOfRange
  | indexError
  | notImplemented (msg : String)
  | malformedAdvertisement (msg : String)
deriving DecidableEq, Repr

/-- Result of a float-returning per-channel accessor: a numeric value, or the
not-a-number sentinel `float('nan')`. -/
inductive PyFloat where
  | val (q : ℚ)
  | nan
deriving DecidableEq, Repr

/-- Modelled from the spec: `FieldType` (blue_st_sdk/features/field.py is absent
from the provided sources). Spec section 3: enumerated variants fixing byte
width and sign/float interpretation. -/
inductive FieldType where
  | Int8
  | UInt8
  | Int16
  | UInt16
  | Int24
  | UInt24
  | Int32
  | UInt32
  | Float
deriving DecidableEq, Repr

/-- Modelled from the spec: `Field` (blue_st_sdk/features/field.py is absent from
the provided sources). Spec section 3: immutable metadata `{name, unit, type,
min, max}`; the constructor argument order follows the call sites in the
feature files: `Field(name, unit, type, max, min)`. -/
structure Field where
  name : String
  unit : String
  type : FieldType
  max : ℚ
  min : ℚ
deriving DecidableEq, Repr

/-- Modelled from the spec: `Sample` (blue_st_sdk/feature.py is absent from the
provided sources). Spec section 3: ordered decoded values, parallel field
descriptors, and a timestamp; the feature code accesses the value list as
`sample._data`, the descriptors as the second constructor argument. -/
structure Sample where
  _data : List ℚ
  _description : List Field
  _timestamp : Int
deriving DecidableEq, Repr

/-- Modelled from the spec: `ExtractedData` (blue_st_sdk/feature.py is absent
from the provided sources). Spec section 3: a `Sample` together with the count
of bytes consumed by the decode call. -/
structure ExtractedData where
  _sample : Sample
  _nbytes : Nat
deriving DecidableEq, Repr

/-- Two's-complement reading of a 16-bit unsigned value as a signed integer. -/
def toSigned16 (n : Nat) : Int :=
  if n < 32768 then (n : Int) else (n : Int) - 65536

/-- Modelled from the spec: `LittleEndian.bytes_to_int16`
(blue_st_sdk/utils/number_conversion.py is absent from the provided sources).
Spec section 4.1: reads bytes in little-endian order (least-significant byte at
the lowest offset), sign-extends the 16-bit result, and fails with the
out-of-range error exactly when `offset + width_in_bytes > buffer_length`. -/
def LittleEndian.bytes_to_int16 (data : List Nat) (offset : Nat) : Except PyError Int :=
  if offset + 2 > data.length then
    .error .outOfRange
  else
    .ok (toSigned16 (((data.get? offset).getD 0) + 256 * ((data.get? (offset + 1)).getD 0)))

/-! ## FeatureAccelerometer (feature_accelerometer.py) -/

def FeatureAccelerometer.FEATURE_NAME : String := "Accelerometer"

def FeatureAccelerometer.FEATURE_UNIT : String := "mg"

def FeatureAccelerometer.FEATURE_DATA_MAX : ℚ := 2000

def FeatureAccelerometer.FEATURE_DATA_MIN : ℚ := -2000

def FeatureAccelerometer.DATA_LENGTH_BYTES : Nat := 6

def FeatureAccelerometer.X_INDEX : Nat := 0

def FeatureAccelerometer.Y_INDEX : Nat := 1

def FeatureAccelerometer.Z_INDEX : Nat := 2

def FeatureAccelerometer.FEATURE_X_FIELD : Field :=
  ⟨"X", FeatureAccelerometer.FEATURE_UNIT, FieldType.Int16,
    FeatureAccelerometer.FEATURE_DATA_MAX, FeatureAccelerometer.FEATURE_DATA_MIN⟩

def FeatureAccelerometer.FEATURE_Y_FIELD : Field :=
  ⟨"Y", FeatureAccelerometer.FEATURE_UNIT, FieldType.Int16,
    FeatureAccelerometer.FEATURE_DATA_MAX, FeatureAccelerometer.FEATURE_DATA_MIN⟩

def FeatureAccelerometer.FEATURE_Z_FIELD : Field :=
  ⟨"Z", FeatureAccelerometer.FEATURE_UNIT, FieldType.Int16,
    FeatureAccelerometer.FEATURE_DATA_MAX, FeatureAccelerometer.FEATURE_DATA_MIN⟩

/-- `get_fields_description()` for the accelerometer: the three fields passed to
the `Feature` constructor. -/
def FeatureAccelerometer.fields_description : List Field :=
  [FeatureAccelerometer.FEATURE_X_FIELD,
   FeatureAccelerometer.FEATURE_Y_FIELD,
   FeatureAccelerometer.FEATURE_Z_FIELD]

/-- `FeatureAccelerometer._extract_data`, parameterized by the numeric-conversion
function so that "the length check happens before any Numeric Conversion call"
is expressible: on a short buffer the result does not depend on `conv`. -/
def FeatureAccelerometer.extract_data_with
    (conv : List Nat → Nat → Except PyError Int)
    (timestamp : Int) (data : List Nat) (offset : Nat) : Except PyError ExtractedData :=
  if (data.length : Int) - (offset : Int) < (FeatureAccelerometer.DATA_LENGTH_BYTES : Int) then
    .error (.invalidData "There are no 6 bytes available to read.")
  else
    match conv data offset, conv data (offset + 2), conv data (offset + 4) with
    | .ok x, .ok y, .ok z =>
        .ok ⟨⟨[(x : ℚ), (y : ℚ), (z : ℚ)],
              FeatureAccelerometer.fields_description, timestamp⟩,
             FeatureAccelerometer.DATA_LENGTH_BYTES⟩
    | .error e, _, _ => .error e
    | _, .error e, _ => .error e
    | _, _, .error e => .error e

/-- `FeatureAccelerometer._extract_data` with the real little-endian conversion. -/
def FeatureAccelerometer.extract_data :
    Int → List Nat → Nat → Except PyError ExtractedData :=
  FeatureAccelerometer.extract_data_with LittleEndian.bytes_to_int16

/-- `FeatureAccelerometer.get_accelerometer_x`: the nested truthiness checks of
the source (`if sample`, `if sample._data`, `if sample._data[X_INDEX]`), where
indexing a too-short list raises `IndexError`. -/
def FeatureAccelerometer.get_accelerometer_x (sample : Option Sample) :
    Except PyError PyFloat :=
  match sample with
  | none => .ok .nan
  | some s =>
    if s._data.isEmpty then .ok .nan
    else
      match s._data.get? FeatureAccelerometer.X_INDEX with
      | none => .error .indexError
      | some v => if v = 0 then .ok .nan else .ok (.val v)

/-- `FeatureAccelerometer.get_accelerometer_y`. -/
def FeatureAccelerometer.get_accelerometer_y (sample : Option Sample) :
    Except PyError PyFloat :=
  match sample with
  | none => .ok .nan
  | some s =>
    if s._data.isEmpty then .ok .nan
    else
      match s._data.get? FeatureAccelerometer.Y_INDEX with
      | none => .error .indexError
      | some v => if v = 0 then .ok .nan else .ok (.val v)

/-- `FeatureAccelerometer.get_accelerometer_z`. -/
def FeatureAccelerometer.get_accelerometer_z (sample : Option Sample) :
    Except PyError PyFloat :=
  match sample with
  | none => .ok .nan
  | some s =>
    if s._data.isEmpty then .ok .nan
    else
      match s._data.get? FeatureAccelerometer.Z_INDEX with
      | none => .error .indexError
      | some v => if v = 0 then .ok .nan else .ok (.val v)

/-! ## FeatureHumidity (feature_humidity.py) -/

def FeatureHumidity.FEATURE_NAME : String := "Humidity"

def FeatureHumidity.FEATURE_UNIT : String := "%"

def FeatureHumidity.FEATURE_DATA_MAX : ℚ := 100

def FeatureHumidity.FEATURE_DATA_MIN : ℚ := 0

def FeatureHumidity.DATA_LENGTH_BYTES : Nat := 2

def FeatureHumidity.SCALE_FACTOR : ℚ := 10

def FeatureHumidity.FEATURE_FIELDS : Field :=
  ⟨"Humidity", FeatureHumidity.FEATURE_UNIT, FieldType.Float,
    FeatureHumidity.FEATURE_DATA_MAX, FeatureHumidity.FEATURE_DATA_MIN⟩

/-- `get_fields_description()` for humidity: the single field passed to the
`Feature` constructor. -/
def FeatureHumidity.fields_description : List Field :=
  [FeatureHumidity.FEATURE_FIELDS]

/-- `FeatureHumidity._extract_data`, parameterized by the numeric-conversion
function (same purpose as for the accelerometer). -/
def FeatureHumidity.extract_data_with
    (conv : List Nat → Nat → Except PyError Int)
    (timestamp : Int) (data : List Nat) (offset : Nat) : Except PyError ExtractedData :=
  if (data.length : Int) - (offset : Int) < (FeatureHumidity.DATA_LENGTH_BYTES : Int) then
    .error (.invalidData "There are no 2 bytes available to read.")
  else
    match conv data offset with
    | .ok v =>
        .ok ⟨⟨[(v : ℚ) / FeatureHumidity.SCALE_FACTOR],
              FeatureHumidity.fields_description, timestamp⟩,
             FeatureHumidity.DATA_LENGTH_BYTES⟩
    | .error e => .error e

/-- `FeatureHumidity._extract_data` with the real little-endian conversion. -/
def FeatureHumidity.extract_data :
    Int → List Nat → Nat → Except PyError ExtractedData :=
  FeatureHumidity.extract_data_with LittleEndian.bytes_to_int16

/-- `FeatureHumidity.get_humidity`: nested truthiness checks, index 0. -/
def FeatureHumidity.get_humidity (sample : Option Sample) :
    Except PyError PyFloat :=
  match sample with
  | none => .ok .nan
  | some s =>
    if s._data.isEmpty then .ok .nan
    else
      match s._data.get? 0 with
      | none => .error .indexError
      | some v => if v = 0 then .ok .nan else .ok (.val v)

/-! ## BLEAdvertisingDataParser (ble_advertising_data_parser.py) -/

/-- Structured result of advertisement parsing (spec section 3: opaque,
variant-defined shape; the base interface never constructs one). -/
structure AdvertisingData where
  payload : List Nat
deriving DecidableEq, Repr

/-- `BLEAdvertisingDataParser.parse`: the base implementation unconditionally
raises `NotImplementedError` with this message. -/
def BLEAdvertisingDataParser.parse (advertising_data : List Nat) :
    Except PyError AdvertisingData :=
  .error (.notImplemented
    "You must implement \"parse()\" to use the \"BLEAdvertisingDataParser\" class.")

/-! ## Helper lemmas -/

/-- When two bytes are available at the offset, the conversion succeeds. -/
theorem bytes_to_int16_isOk (data : List Nat) (offset : Nat)
    (h : offset + 2 ≤ data.length) :
    ∃ v, LittleEndian.bytes_to_int16 data offset = .ok v := by
  unfold LittleEndian.bytes_to_int16
  rw [if_neg (by omega)]
  exact ⟨_, rfl⟩

/-- Short buffer: the accelerometer strategy fails with the malformed-data
error, for any conversion function. -/
theorem accel_short_error_gen (conv : List Nat → Nat → Except PyError Int)
    (ts : Int) (data : List Nat) (offset : Nat)
    (h : (data.length : Int) - (offset : Int) < 6) :
    FeatureAccelerometer.extract_data_with conv ts data offset
      = .error (.invalidData "There are no 6 bytes available to read.") := by
  have hc : (data.length : Int) - (offset : Int)
      < (FeatureAccelerometer.DATA_LENGTH_BYTES : Int) := by
    unfold FeatureAccelerometer.DATA_LENGTH_BYTES
    omega
  simp [FeatureAccelerometer.extract_data_with, hc]

/-- Short buffer: the accelerometer extraction fails with the malformed-data
error. -/
theorem accel_short_error (ts : Int) (data : List Nat) (offset : Nat)
    (h : (data.length : Int) - (offset : Int) < 6) :
    FeatureAccelerometer.extract_data ts data offset
      = .error (.invalidData "There are no 6 bytes available to read.") :=
  accel_short_error_gen LittleEndian.bytes_to_int16 ts data offset h

/-- Long-enough buffer: the accelerometer extraction succeeds with three
decoded values and the fixed byte count. -/
theorem accel_ok_of_not_short (ts : Int) (data : List Nat) (offset : Nat)
    (h : ¬ ((data.length : Int) - (offset : Int) < 6)) :
    ∃ x y z : Int, FeatureAccelerometer.extract_data ts data offset
      = .ok ⟨⟨[(x : ℚ), (y : ℚ), (z : ℚ)],
              FeatureAccelerometer.fields_description, ts⟩,
             FeatureAccelerometer.DATA_LENGTH_BYTES⟩ := by
  obtain ⟨x, hx⟩ := bytes_to_int16_isOk data offset (by omega)
  obtain ⟨y, hy⟩ := bytes_to_int16_isOk data (offset + 2) (by omega)
  obtain ⟨z, hz⟩ := bytes_to_int16_isOk data (offset + 4) (by omega)
  have hc : ¬ ((data.length : Int) - (offset : Int)
      < (FeatureAccelerometer.DATA_LENGTH_BYTES : Int)) := by
    unfold FeatureAccelerometer.DATA_LENGTH_BYTES
    omega
  refine ⟨x, y, z, ?_⟩
  simp [FeatureAccelerometer.extract_data, FeatureAccelerometer.extract_data_with,
    hc, hx, hy, hz]

/-- Short buffer: the humidity strategy fails with the malformed-data error,
for any conversion function. -/
theorem hum_short_error_gen (conv : List Nat → Nat → Except PyError Int)
    (ts : Int) (data : List Nat) (offset : Nat)
    (h : (data.length : Int) - (offset : Int) < 2) :
    FeatureHumidity.extract_data_with conv ts data offset
      = .error (.invalidData "There are no 2 bytes available to read.") := by
  have hc : (data.length : Int) - (offset : Int)
      < (FeatureHumidity.DATA_LENGTH_BYTES : Int) := by
    unfold FeatureHumidity.DATA_LENGTH_BYTES
    omega
  simp [FeatureHumidity.extract_data_with, hc]

/-- Short buffer: the humidity extraction fails with the malformed-data error. -/
theorem hum_short_error (ts : Int) (data : List Nat) (offset : Nat)
    (h : (data.length : Int) - (offset : Int) < 2) :
    FeatureHumidity.extract_data ts data offset
      = .error (.invalidData "There are no 2 bytes available to read.") :=
  hum_short_error_gen LittleEndian.bytes_to_int16 ts data offset h

/-- Long-enough buffer: the humidity extraction succeeds with one scaled value
and the fixed byte count. -/
theorem hum_ok_of_not_short (ts : Int) (data : List Nat) (offset : Nat)
    (h : ¬ ((data.length : Int) - (offset : Int) < 2)) :
    ∃ v : Int, FeatureHumidity.extract_data ts data offset
      = .ok ⟨⟨[(v : ℚ) / FeatureHumidity.SCALE_FACTOR],
              FeatureHumidity.fields_description, ts⟩,
             FeatureHumidity.DATA_LENGTH_BYTES⟩ := by
  obtain ⟨v, hv⟩ := bytes_to_int16_isOk data offset (by omega)
  have hc : ¬ ((data.length : Int) - (offset : Int)
      < (FeatureHumidity.DATA_LENGTH_BYTES : Int)) := by
    unfold FeatureHumidity.DATA_LENGTH_BYTES
    omega
  refine ⟨v, ?_⟩
  simp [FeatureHumidity.extract_data, FeatureHumidity.extract_data_with, hc, hv]


/-! ## Claim theorems -/

/-- C1: for either feature kind, any timestamp, buffer and offset,
`_extract_data` fails with the `BlueSTInvalidDataException` malformed-data
error exactly when `len(buffer) - offset` is below the feature's
`DATA_LENGTH_BYTES`; in that case the result is the same for every
numeric-conversion function (so the length check precedes any conversion
call), and no `Sample`/`ExtractedData` is produced. -/
theorem extract_malformed_exactly_when_short (ts : Int) (data : List Nat) (offset : Nat) :
    (FeatureAccelerometer.extract_data ts data offset
        = .error (.invalidData "There are no 6 bytes available to read.")
      ↔ (data.length : Int) - (offset : Int) < 6)
    ∧ (∀ conv, (data.length : Int) - (offset : Int) < 6 →
        FeatureAccelerometer.extract_data_with conv ts data offset
          = .error (.invalidData "There are no 6 bytes available to read."))
    ∧ (FeatureHumidity.extract_data ts data offset
        = .error (.invalidData "There are no 2 bytes available to read.")
      ↔ (data.length : Int) - (offset : Int) < 2)
    ∧ (∀ conv, (data.length : Int) - (offset : Int) < 2 →
        FeatureHumidity.extract_data_with conv ts data offset
          = .error (.invalidData "There are no 2 bytes available to read.")) := by
  refine ⟨⟨fun he => ?_, fun h => accel_short_error ts data offset h⟩,
    fun conv h => accel_short_error_gen conv ts data offset h,
    ⟨fun he => ?_, fun h => hum_short_error ts data offset h⟩,
    fun conv h => hum_short_error_gen conv ts data offset h⟩
  · by_contra hns
    obtain ⟨x, y, z, hok⟩ := accel_ok_of_not_short ts data offset hns
    rw [hok] at he
    exact Except.noConfusion he
  · by_contra hns
    obtain ⟨v, hok⟩ := hum_ok_of_not_short ts data offset hns
    rw [hok] at he
    exact Except.noConfusion he

/-- C1 witness: at the empty buffer and offset 0, both extractions fail with
the malformed-data error. -/
theorem extract_malformed_exactly_when_short_witness :
    FeatureAccelerometer.extract_data 0 [] 0
      = .error (.invalidData "There are no 6 bytes available to read.")
    ∧ FeatureHumidity.extract_data 0 [] 0
      = .error (.invalidData "There are no 2 bytes available to read.") :=
  ⟨(extract_malformed_exactly_when_short 0 [] 0).1.mpr (by decide),
   (extract_malformed_exactly_when_short 0 [] 0).2.2.1.mpr (by decide)⟩

/-- C2: the accelerometer decodes `[0x10,0x00, 0x20,0x00, 0xF0,0xFF]` at
offset 0 to the sample `X=16, Y=32, Z=-16` (each axis an independent
little-endian signed 16-bit integer, no scaling) with 6 bytes consumed, for
any timestamp. -/
theorem accel_concrete_decode (ts : Int) :
    FeatureAccelerometer.extract_data ts [0x10, 0x00, 0x20, 0x00, 0xF0, 0xFF] 0
      = .ok ⟨⟨[16, 32, -16], FeatureAccelerometer.fields_description, ts⟩, 6⟩ := by
  rfl

/-- C2 witness: the same decode at timestamp 0. -/
theorem accel_concrete_decode_witness :
    FeatureAccelerometer.extract_data 0 [0x10, 0x00, 0x20, 0x00, 0xF0, 0xFF] 0
      = .ok ⟨⟨[16, 32, -16], FeatureAccelerometer.fields_description, 0⟩, 6⟩ :=
  accel_concrete_decode 0

/-- C3: the humidity feature decodes `[0xF4,0x01]` at offset 0 to the single
value 500 / 10 = 50 with 2 bytes consumed, for any timestamp. -/
theorem humidity_concrete_decode (ts : Int) :
    FeatureHumidity.extract_data ts [0xF4, 0x01] 0
      = .ok ⟨⟨[(50 : ℚ)], FeatureHumidity.fields_description, ts⟩, 2⟩
    ∧ (500 : ℚ) / FeatureHumidity.SCALE_FACTOR = 50 := by
  constructor
  · unfold FeatureHumidity.extract_data FeatureHumidity.extract_data_with
    norm_num [LittleEndian.bytes_to_int16, toSigned16, FeatureHumidity.SCALE_FACTOR,
      FeatureHumidity.DATA_LENGTH_BYTES]
  · norm_num [FeatureHumidity.SCALE_FACTOR]

/-- C3 witness: the same decode at timestamp 0. -/
theorem humidity_concrete_decode_witness :
    FeatureHumidity.extract_data 0 [0xF4, 0x01] 0
      = .ok ⟨⟨[(50 : ℚ)], FeatureHumidity.fields_description, 0⟩, 2⟩ :=
  (humidity_concrete_decode 0).1

/-- C4: whenever `_extract_data` succeeds, the returned `ExtractedData` has
`bytes_consumed` equal to the feature's fixed `DATA_LENGTH_BYTES` (6 for the
accelerometer, 2 for humidity) regardless of extra bytes in the buffer, and
that count never exceeds `len(buffer) - offset`. -/
theorem bytes_consumed_fixed (ts : Int) (data : List Nat) (offset : Nat) :
    (∀ e, FeatureAccelerometer.extract_data ts data offset = .ok e →
        e._nbytes = FeatureAccelerometer.DATA_LENGTH_BYTES
        ∧ (e._nbytes : Int) ≤ (data.length : Int) - (offset : Int))
    ∧ (∀ e, FeatureHumidity.extract_data ts data offset = .ok e →
        e._nbytes = FeatureHumidity.DATA_LENGTH_BYTES
        ∧ (e._nbytes : Int) ≤ (data.length : Int) - (offset : Int)) := by
  constructor
  · intro e he
    by_cases hs : (data.length : Int) - (offset : Int) < 6
    · rw [accel_short_error ts data offset hs] at he
      exact Except.noConfusion he
    · obtain ⟨x, y, z, hok⟩ := accel_ok_of_not_short ts data offset hs
      rw [hok] at he
      injection he with he
      subst he
      refine ⟨rfl, ?_⟩
      simp only [FeatureAccelerometer.DATA_LENGTH_BYTES]
      omega
  · intro e he
    by_cases hs : (data.length : Int) - (offset : Int) < 2
    · rw [hum_short_error ts data offset hs] at he
      exact Except.noConfusion he
    · obtain ⟨v, hok⟩ := hum_ok_of_not_short ts data offset hs
      rw [hok] at he
      injection he with he
      subst he
      refine ⟨rfl, ?_⟩
      simp only [FeatureHumidity.DATA_LENGTH_BYTES]
      omega

/-- C4 witness: on an 8-byte buffer at offset 0, the accelerometer consumes
exactly 6 bytes and 6 does not exceed the 8 available bytes. -/
theorem bytes_consumed_fixed_witness :
    (⟨⟨[16, 32, -16], FeatureAccelerometer.fields_description, 0⟩, 6⟩
        : ExtractedData)._nbytes = FeatureAccelerometer.DATA_LENGTH_BYTES
    ∧ ((⟨⟨[16, 32, -16], FeatureAccelerometer.fields_description, 0⟩, 6⟩
        : ExtractedData)._nbytes : Int)
      ≤ (([0x10, 0x00, 0x20, 0x00, 0xF0, 0xFF, 0xAA, 0xBB] : List Nat).length : Int)
        - ((0 : Nat) : Int) :=
  (bytes_consumed_fixed 0 [0x10, 0x00, 0x20, 0x00, 0xF0, 0xFF, 0xAA, 0xBB] 0).1
    ⟨⟨[16, 32, -16], FeatureAccelerometer.fields_description, 0⟩, 6⟩ (by rfl)

/-- C5: every per-channel accessor returns the not-a-number sentinel (and does
not raise) when the sample is absent or its value list is empty. -/
theorem accessor_nan_on_absent (s : Sample) (h : s._data = []) :
    FeatureAccelerometer.get_accelerometer_x none = .ok .nan
    ∧ FeatureAccelerometer.get_accelerometer_y none = .ok .nan
    ∧ FeatureAccelerometer.get_accelerometer_z none = .ok .nan
    ∧ FeatureHumidity.get_humidity none = .ok .nan
    ∧ FeatureAccelerometer.get_accelerometer_x (some s) = .ok .nan
    ∧ FeatureAccelerometer.get_accelerometer_y (some s) = .ok .nan
    ∧ FeatureAccelerometer.get_accelerometer_z (some s) = .ok .nan
    ∧ FeatureHumidity.get_humidity (some s) = .ok .nan := by
  refine ⟨rfl, rfl, rfl, rfl, ?_, ?_, ?_, ?_⟩
  · simp [FeatureAccelerometer.get_accelerometer_x, h]
  · simp [FeatureAccelerometer.get_accelerometer_y, h]
  · simp [FeatureAccelerometer.get_accelerometer_z, h]
  · simp [FeatureHumidity.get_humidity, h]

/-- C5 witness: at a sample with an empty value list. -/
theorem accessor_nan_on_absent_witness :
    FeatureAccelerometer.get_accelerometer_x none = .ok .nan
    ∧ FeatureAccelerometer.get_accelerometer_y none = .ok .nan
    ∧ FeatureAccelerometer.get_accelerometer_z none = .ok .nan
    ∧ FeatureHumidity.get_humidity none = .ok .nan
    ∧ FeatureAccelerometer.get_accelerometer_x (some ⟨[], [], 0⟩) = .ok .nan
    ∧ FeatureAccelerometer.get_accelerometer_y (some ⟨[], [], 0⟩) = .ok .nan
    ∧ FeatureAccelerometer.get_accelerometer_z (some ⟨[], [], 0⟩) = .ok .nan
    ∧ FeatureHumidity.get_humidity (some ⟨[], [], 0⟩) = .ok .nan :=
  accessor_nan_on_absent ⟨[], [], 0⟩ rfl

/-- C6: on samples of the expected length whose value at the accessed index is
the legitimate value 0, every per-channel accessor returns the not-a-number
sentinel instead of 0, because the source checks the truthiness of
`sample._data[index]`. -/
theorem accessor_nan_on_zero_value (s3 s1 : Sample)
    (h3 : s3._data.length = 3) (h1 : s1._data.length = 1) :
    (s3._data.get? FeatureAccelerometer.X_INDEX = some 0 →
      FeatureAccelerometer.get_accelerometer_x (some s3) = .ok .nan)
    ∧ (s3._data.get? FeatureAccelerometer.Y_INDEX = some 0 →
      FeatureAccelerometer.get_accelerometer_y (some s3) = .ok .nan)
    ∧ (s3._data.get? FeatureAccelerometer.Z_INDEX = some 0 →
      FeatureAccelerometer.get_accelerometer_z (some s3) = .ok .nan)
    ∧ (s1._data.get? 0 = some 0 →
      FeatureHumidity.get_humidity (some s1) = .ok .nan) := by
  have hne3 : s3._data.isEmpty = false := by
    rcases hd : s3._data with _ | ⟨a, t⟩
    · rw [hd] at h3
      simp at h3
    · rfl
  have hne1 : s1._data.isEmpty = false := by
    rcases hd : s1._data with _ | ⟨a, t⟩
    · rw [hd] at h1
      simp at h1
    · rfl
  refine ⟨fun hz => ?_, fun hz => ?_, fun hz => ?_, fun hz => ?_⟩
  · rw [List.get?_eq_getElem?] at hz
    simp [FeatureAccelerometer.get_accelerometer_x, hne3, hz]
  · rw [List.get?_eq_getElem?] at hz
    simp [FeatureAccelerometer.get_accelerometer_y, hne3, hz]
  · rw [List.get?_eq_getElem?] at hz
    simp [FeatureAccelerometer.get_accelerometer_z, hne3, hz]
  · rw [List.get?_eq_getElem?] at hz
    simp [FeatureHumidity.get_humidity, hne1, hz]

/-- C6 witness: the all-zero samples of lengths 3 and 1. -/
theorem accessor_nan_on_zero_value_witness :
    FeatureAccelerometer.get_accelerometer_x (some ⟨[0, 0, 0], [], 0⟩) = .ok .nan
    ∧ FeatureHumidity.get_humidity (some ⟨[0], [], 0⟩) = .ok .nan :=
  ⟨(accessor_nan_on_zero_value ⟨[0, 0, 0], [], 0⟩ ⟨[0], [], 0⟩
      (by decide) (by decide)).1 (by decide),
   (accessor_nan_on_zero_value ⟨[0, 0, 0], [], 0⟩ ⟨[0], [], 0⟩
      (by decide) (by decide)).2.2.2 (by decide)⟩

/-- C7: with fewer than `DATA_LENGTH_BYTES - 1` bytes available at the offset,
both `_extract_data` implementations always fail with the malformed-data
error, no `Sample` is produced, and the result is the same for every
numeric-conversion function (no conversion is attempted). -/
theorem extract_fails_below_width_minus_one (ts : Int) (data : List Nat) (offset : Nat) :
    ((data.length : Int) - (offset : Int)
        < (FeatureAccelerometer.DATA_LENGTH_BYTES : Int) - 1 →
      FeatureAccelerometer.extract_data ts data offset
          = .error (.invalidData "There are no 6 bytes available to read.")
        ∧ ∀ conv, FeatureAccelerometer.extract_data_with conv ts data offset
          = .error (.invalidData "There are no 6 bytes available to read."))
    ∧ ((data.length : Int) - (offset : Int)
        < (FeatureHumidity.DATA_LENGTH_BYTES : Int) - 1 →
      FeatureHumidity.extract_data ts data offset
          = .error (.invalidData "There are no 2 bytes available to read.")
        ∧ ∀ conv, FeatureHumidity.extract_data_with conv ts data offset
          = .error (.invalidData "There are no 2 bytes available to read.")) := by
  constructor
  · intro h
    have h6 : (data.length : Int) - (offset : Int) < 6 := by
      unfold FeatureAccelerometer.DATA_LENGTH_BYTES at h
      omega
    exact ⟨accel_short_error ts data offset h6,
      fun conv => accel_short_error_gen conv ts data offset h6⟩
  · intro h
    have h2 : (data.length : Int) - (offset : Int) < 2 := by
      unfold FeatureHumidity.DATA_LENGTH_BYTES at h
      omega
    exact ⟨hum_short_error ts data offset h2,
      fun conv => hum_short_error_gen conv ts data offset h2⟩

/-- C7 witness: at the empty buffer and offset 0 (0 bytes available is below
6 - 1 and below 2 - 1). -/
theorem extract_fails_below_width_minus_one_witness :
    FeatureAccelerometer.extract_data 0 [] 0
        = .error (.invalidData "There are no 6 bytes available to read.")
    ∧ FeatureHumidity.extract_data 0 [] 0
        = .error (.invalidData "There are no 2 bytes available to read.") :=
  ⟨((extract_fails_below_width_minus_one 0 [] 0).1 (by decide)).1,
   ((extract_fails_below_width_minus_one 0 [] 0).2 (by decide)).1⟩

/-- C8: raw decode is not clamped to the declared [min, max] range: humidity
(declared range [0, 100]) decodes `[0x00, 0x80]` to the negative value
-32768 / 10, strictly below `FEATURE_DATA_MIN`, and the accelerometer
(declared range [-2000, 2000]) decodes a first axis of 32767, strictly above
`FEATURE_DATA_MAX`. -/
theorem decode_not_clamped :
    FeatureHumidity.extract_data 0 [0x00, 0x80] 0
      = .ok ⟨⟨[(-32768 : ℚ) / 10], FeatureHumidity.fields_description, 0⟩, 2⟩
    ∧ (-32768 : ℚ) / 10 < FeatureHumidity.FEATURE_DATA_MIN
    ∧ FeatureAccelerometer.extract_data 0 [0xFF, 0x7F, 0x00, 0x00, 0x00, 0x00] 0
      = .ok ⟨⟨[(32767 : ℚ), 0, 0], FeatureAccelerometer.fields_description, 0⟩, 6⟩
    ∧ FeatureAccelerometer.FEATURE_DATA_MAX < (32767 : ℚ) := by
  refine ⟨?_, ?_, ?_, ?_⟩
  · unfold FeatureHumidity.extract_data FeatureHumidity.extract_data_with
    norm_num [LittleEndian.bytes_to_int16, toSigned16, FeatureHumidity.SCALE_FACTOR,
      FeatureHumidity.DATA_LENGTH_BYTES]
  · norm_num [FeatureHumidity.FEATURE_DATA_MIN]
  · rfl
  · norm_num [FeatureAccelerometer.FEATURE_DATA_MAX]

/-- C9: the accelerometer accessors are not total on arbitrary samples: on a
sample whose value list is non-empty but has length 1, `get_accelerometer_z`
(index 2) raises an index-out-of-range error instead of returning the
sentinel. -/
theorem get_z_raises_on_short_sample :
    FeatureAccelerometer.get_accelerometer_z (some ⟨[1], [], 0⟩) = .error .indexError
    ∧ (⟨[1], [], 0⟩ : Sample)._data ≠ []
    ∧ (⟨[1], [], 0⟩ : Sample)._data.length < 3 := by
  refine ⟨rfl, by simp, by simp⟩

/-- C10: the base `BLEAdvertisingDataParser.parse` raises `NotImplementedError`
for every input buffer; it never returns an `AdvertisingData` result and never
raises a malformed-advertisement error. -/
theorem parse_always_not_implemented (advertising_data : List Nat) :
    BLEAdvertisingDataParser.parse advertising_data
      = .error (.notImplemented
        "You must implement \"parse()\" to use the \"BLEAdvertisingDataParser\" class.")
    ∧ (∀ r : AdvertisingData,
        BLEAdvertisingDataParser.parse advertising_data ≠ .ok r)
    ∧ (∀ m : String,
        BLEAdvertisingDataParser.parse advertising_data
          ≠ .error (.malformedAdvertisement m)) := by
  refine ⟨rfl, fun r h => ?_, fun m h => ?_⟩
  · exact Except.noConfusion h
  · exact PyError.noConfusion (Except.error.inj h)

/-- C10 witness: at the empty buffer. -/
theorem parse_always_not_implemented_witness :
    BLEAdvertisingDataParser.parse []
      = .error (.notImplemented
        "You must implement \"parse()\" to use the \"BLEAdvertisingDataParser\" class.") :=
  (parse_always_not_implemented []).1

end BlueST
